import Mathlib

/-!
Verification development for the ConvertirseAI code-conversion tool
(`src/convertirse.py`).

The program is a single-page tool that builds a prompt from
(source language, target language, code) and sends it to an external
text-generation service, memoizing the result.  The embedding below models:

* `LANGUAGES` — the fixed language enumeration offered by both selectboxes;
* `pyStrip` — Python's `str.strip()` over the full `str.isspace()`
  whitespace set;
* `strBytes` / `md5Digest` / `hash_input` — `hashlib.md5` of the
  colon-separated concatenation, as in `hash_input`;
* `conversion_prompt` — the prompt template with its three substitutions;
* `ChatGroq` / `LLMChain` — the model client and chain, with the external
  behaviour as an explicit `Except`-valued function;
* `convert_code` — the `@st.cache_data`-memoized conversion: the cache is
  keyed on the argument triple, the leading-underscore `_chain` argument
  being excluded from the key; nothing is stored when the call fails;
* `transformStep` — the body of the `if transform_button:` block in `main`
  (length validation, the unused `cache_key` computation, the call, and the
  success/error messages);
* `main_run` — `main` including `handle_api`'s fail-closed credential check
  and the selectbox-constrained language choices.

External state is passed explicitly; the number of external-model
invocations is returned alongside each result so that cache behaviour is
observable.
-/

/-- Fixed language enumeration (`LANGUAGES` in the source), used for both
the source- and the target-language selectbox. -/
def LANGUAGES : List String :=
  ["Python", "JavaScript", "Java", "C++", "Ruby", "Go", "Rust", "TypeScript", "PHP", "Swift"]

/-- Characters removed by Python's `str.strip()`: exactly the code points
for which `str.isspace()` holds — U+0009–U+000D, U+001C–U+001F, the space,
U+0085, U+00A0, U+1680, U+2000–U+200A, the line and paragraph separators
U+2028/U+2029, U+202F, U+205F and U+3000. -/
def isPySpace (ch : Char) : Bool :=
  let n := ch.toNat
  (9 ≤ n && n ≤ 13) || (28 ≤ n && n ≤ 32) || n = 133 || n = 160 ||
    n = 5760 || (8192 ≤ n && n ≤ 8202) || n = 8232 || n = 8233 ||
    n = 8239 || n = 8287 || n = 12288

/-- Python's `source_code.strip()`: drop leading and trailing whitespace;
interior whitespace is kept. -/
def pyStrip (s : String) : String :=
  String.mk (((s.data.dropWhile isPySpace).reverse.dropWhile isPySpace).reverse)

/-- Number of non-whitespace characters of a string (used to compare the
code's acceptance test with a count of non-whitespace characters). -/
def nonWhitespaceCount (s : String) : Nat :=
  (s.data.filter (fun ch => !(isPySpace ch))).length

/-- UTF-8 encoding of a single code point, as `str.encode()` produces. -/
def utf8Bytes (n : Nat) : List Nat :=
  if n < 0x80 then [n]
  else if n < 0x800 then
    [0xC0 ||| (n >>> 6), 0x80 ||| (n &&& 0x3F)]
  else if n < 0x10000 then
    [0xE0 ||| (n >>> 12), 0x80 ||| ((n >>> 6) &&& 0x3F), 0x80 ||| (n &&& 0x3F)]
  else
    [0xF0 ||| (n >>> 18), 0x80 ||| ((n >>> 12) &&& 0x3F),
     0x80 ||| ((n >>> 6) &&& 0x3F), 0x80 ||| (n &&& 0x3F)]

/-- Byte sequence of a string under UTF-8 (`f"...".encode()`). -/
def strBytes (s : String) : List Nat :=
  s.data.foldr (fun ch acc => utf8Bytes ch.toNat ++ acc) []

/-- Little-endian byte decomposition: `leBytes k n` is the `k` low bytes of
`n`, least significant first. -/
def leBytes : Nat → Nat → List Nat
  | 0, _ => []
  | k + 1, n => n % 256 :: leBytes k (n / 256)

/-- MD5 per-round additive constants (RFC 1321: `floor(2^32 * abs(sin(i+1)))`). -/
def md5K : List Nat :=
  [0xd76aa478, 0xe8c7b756, 0x242070db, 0xc1bdceee,
   0xf57c0faf, 0x4787c62a, 0xa8304613, 0xfd469501,
   0x698098d8, 0x8b44f7af, 0xffff5bb1, 0x895cd7be,
   0x6b901122, 0xfd987193, 0xa679438e, 0x49b40821,
   0xf61e2562, 0xc040b340, 0x265e5a51, 0xe9b6c7aa,
   0xd62f105d, 0x02441453, 0xd8a1e681, 0xe7d3fbc8,
   0x21e1cde6, 0xc33707d6, 0xf4d50d87, 0x455a14ed,
   0xa9e3e905, 0xfcefa3f8, 0x676f02d9, 0x8d2a4c8a,
   0xfffa3942, 0x8771f681, 0x6d9d6122, 0xfde5380c,
   0xa4beea44, 0x4bdecfa9, 0xf6bb4b60, 0xbebfbc70,
   0x289b7ec6, 0xeaa127fa, 0xd4ef3085, 0x04881d05,
   0xd9d4d039, 0xe6db99e5, 0x1fa27cf8, 0xc4ac5665,
   0xf4292244, 0x432aff97, 0xab9423a7, 0xfc93a039,
   0x655b59c3, 0x8f0ccc92, 0xffeff47d, 0x85845dd1,
   0x6fa87e4f, 0xfe2ce6e0, 0xa3014314, 0x4e0811a1,
   0xf7537e82, 0xbd3af235, 0x2ad7d2bb, 0xeb86d391]

/-- MD5 per-round left-rotation amounts (RFC 1321). -/
def md5S : List Nat :=
  [7, 12, 17, 22, 7, 12, 17, 22, 7, 12, 17, 22, 7, 12, 17, 22,
   5, 9, 14, 20, 5, 9, 14, 20, 5, 9, 14, 20, 5, 9, 14, 20,
   4, 11, 16, 23, 4, 11, 16, 23, 4, 11, 16, 23, 4, 11, 16, 23,
   6, 10, 15, 21, 6, 10, 15, 21, 6, 10, 15, 21, 6, 10, 15, 21]

/-- State of the MD5 computation: four 32-bit words, kept as `Nat` with
explicit reduction modulo `2 ^ 32`. -/
structure MD5State where
  a : Nat
  b : Nat
  c : Nat
  d : Nat
deriving DecidableEq, Repr

/-- Left rotation of a 32-bit word. -/
def rotl32 (x n : Nat) : Nat :=
  ((x <<< n) ||| (x >>> (32 - n))) % 2 ^ 32

/-- One of the 64 MD5 rounds: `M` gives the message words of the current
chunk, `i` is the round index. -/
def md5Round (M : Nat → Nat) (st : MD5State) (i : Nat) : MD5State :=
  let F :=
    if i < 16 then (st.b &&& st.c) ||| (((2 ^ 32 - 1) ^^^ st.b) &&& st.d)
    else if i < 32 then (st.d &&& st.b) ||| (((2 ^ 32 - 1) ^^^ st.d) &&& st.c)
    else if i < 48 then st.b ^^^ st.c ^^^ st.d
    else st.c ^^^ (st.b ||| ((2 ^ 32 - 1) ^^^ st.d))
  let g :=
    if i < 16 then i
    else if i < 32 then (5 * i + 1) % 16
    else if i < 48 then (3 * i + 5) % 16
    else (7 * i) % 16
  let F' := (F + st.a + md5K.getD i 0 + M g) % 2 ^ 32
  ⟨st.d, (st.b + rotl32 F' (md5S.getD i 0)) % 2 ^ 32, st.b, st.c⟩

/-- Message word `g` of a 64-byte chunk, read little-endian. -/
def chunkWord (chunk : List Nat) (g : Nat) : Nat :=
  chunk.getD (4 * g) 0 + 256 * chunk.getD (4 * g + 1) 0 +
    65536 * chunk.getD (4 * g + 2) 0 + 16777216 * chunk.getD (4 * g + 3) 0

/-- Process one 64-byte chunk: run the 64 rounds, then add the result into
the running state modulo `2 ^ 32`. -/
def md5Chunk (st : MD5State) (chunk : List Nat) : MD5State :=
  let r := (List.range 64).foldl (md5Round (chunkWord chunk)) st
  ⟨(st.a + r.a) % 2 ^ 32, (st.b + r.b) % 2 ^ 32,
   (st.c + r.c) % 2 ^ 32, (st.d + r.d) % 2 ^ 32⟩

/-- MD5 padding: a `0x80` byte, zeros to 56 mod 64, then the bit length as
eight little-endian bytes. -/
def md5Pad (msg : List Nat) : List Nat :=
  let len := msg.length
  let z := (119 - len % 64) % 64
  msg ++ 128 :: (List.replicate z 0 ++ leBytes 8 (8 * len % 2 ^ 64))

/-- Split a byte list into successive 64-byte chunks. -/
def splitChunks (l : List Nat) : List (List Nat) :=
  match l with
  | [] => []
  | x :: xs => (x :: xs).take 64 :: splitChunks (xs.drop 63)
termination_by l.length
decreasing_by simp; omega

/-- Initial MD5 state (RFC 1321). -/
def md5Init : MD5State :=
  ⟨0x67452301, 0xefcdab89, 0x98badcfe, 0x10325476⟩

/-- Full MD5 digest of a byte sequence. -/
def md5Digest (msg : List Nat) : MD5State :=
  (splitChunks (md5Pad msg)).foldl md5Chunk md5Init

/-- The 128-bit digest as one natural number, little-endian word order (so
its 16 little-endian bytes are exactly the bytes of `hexdigest()`). -/
def md5Nat (msg : List Nat) : Nat :=
  (md5Digest msg).a + 2 ^ 32 * (md5Digest msg).b +
    2 ^ 64 * (md5Digest msg).c + 2 ^ 96 * (md5Digest msg).d

/-- Lower-case hexadecimal digit. -/
def hexDigitChar (n : Nat) : Char :=
  Char.ofNat (if n < 10 then 48 + n else 87 + n)

/-- Lower-case hex rendering of the 16 digest bytes (`hexdigest()`). -/
def md5Hex (n : Nat) : String :=
  String.mk ((leBytes 16 n).foldr
    (fun byte acc => hexDigitChar (byte / 16) :: hexDigitChar (byte % 16) :: acc) [])

/-- Preimage string fed to the hash: `f"{source_lang}:{target_lang}:{code}"`. -/
def hashPreimage (source_lang target_lang code : String) : String :=
  source_lang ++ ":" ++ target_lang ++ ":" ++ code

/-- Model of `hash_input`: md5 hexdigest of the colon-separated
concatenation of the three request fields. -/
def hash_input (source_lang target_lang code : String) : String :=
  md5Hex (md5Nat (strBytes (hashPreimage source_lang target_lang code)))

/-- Template text before the first `{source_lang}`. -/
def tpl0 : String :=
  "\n    You are an expert programmer with extensive experience in multiple programming languages and paradigms. Your task is to convert the given code from "

/-- Template text between the first `{source_lang}` and the first `{target_lang}`. -/
def tpl1 : String := " to "

/-- Template text up to the `Source Language:` substitution. -/
def tpl2 : String :=
  " with high accuracy and adherence to best practices.\n\n    Source Language: "

/-- Template text up to the `Target Language:` substitution. -/
def tpl3 : String := "\n    Target Language: "

/-- Template text up to the opening fence of the original code block. -/
def tpl4 : String := "\n\n    Original Code:\n    "

/-- Template text between the original-code fence language and `{code}`. -/
def tpl5 : String := "\n    "

/-- Template text from the end of the code block to guideline 2's first
`{target_lang}`. -/
def tpl6 : String :=
  "\n    ```\n\n    Please follow these comprehensive guidelines for the code conversion:\n\n    1. Code Structure and Logic:\n       - Maintain the overall structure and logic of the original code.\n       - If the target language requires significant structural changes, explain the reasons in comments.\n\n    2. Language Idioms and Best Practices:\n       - Use idiomatic expressions and coding conventions specific to "

/-- Template text up to guideline 2's second `{target_lang}`. -/
def tpl7 : String :=
  ".\n       - Implement best practices and design patterns appropriate for "

/-- Template text up to guideline 4's `{target_lang}`. -/
def tpl8 : String :=
  ".\n\n    3. Comments and Documentation:\n       - Preserve existing comments, translating them if necessary.\n       - Add explanatory comments for any non-obvious conversions or language-specific implementations.\n       - Provide clear and concise documentation, including function docstrings and usage examples.\n\n    4. Language-Specific Features:\n       - Utilize language-specific features of "

/-- Template text up to guideline 6's `{target_lang}`. -/
def tpl9 : String :=
  " where appropriate.\n       - For features without direct equivalents, provide the closest alternative and explain the difference in comments.\n\n    5. Code Completeness and Correctness:\n       - Ensure the converted code is complete, correct, and ready to run.\n       - If the source code is incomplete or contains errors, make reasonable assumptions and note them in comments.\n\n    6. Dependencies and Imports:\n       - Include all necessary import statements, library inclusions, or module imports for "

/-- Template text up to guideline 9's `{target_lang}`. -/
def tpl10 : String :=
  ".\n       - If external libraries are required, provide instructions for installation and importing.\n\n    7. Architecture and Design Patterns:\n       - If the conversion requires changes in architecture or design patterns, explain the rationale behind these changes in comments.\n\n    8. Optimization:\n       - Optimize the code for performance, readability, and maintainability where possible.\n       - Explain any significant optimizations made in comments.\n\n    9. Error Handling and Input Validation:\n       - Implement proper error handling and exception management appropriate for "

/-- Template text up to guideline 11's `{target_lang}`. -/
def tpl11 : String :=
  ".\n       - Include input validation and edge case handling in the converted code.\n\n    10. Coding Paradigms:\n        - If the conversion involves different paradigms (e.g., procedural to object-oriented, imperative to functional), explain the approach and reasons in comments.\n\n    11. Coding Style and Conventions:\n        - Adhere to the coding style guide and conventions of "

/-- Template text up to guideline 13's `{target_lang}`. -/
def tpl12 : String :=
  " and its ecosystem.\n        - Use consistent naming conventions, indentation, and formatting.\n\n    12. Platform and Environment Considerations:\n        - If the conversion involves platform-specific features or dependencies, mention any compatibility issues or caveats in comments.\n        - Provide any necessary setup or configuration instructions for the target environment.\n\n    13. Testing Considerations:\n        - If the original code includes tests, convert them to the appropriate testing framework in "

/-- Template text up to guideline 14's `{target_lang}`. -/
def tpl13 : String :=
  ".\n        - Suggest additional test cases that might be relevant in the new language environment.\n\n    14. Performance Implications:\n        - Highlight any significant performance differences between the original and converted code.\n        - Suggest performance optimizations specific to "

/-- Template text up to guideline 15's `{target_lang}`. -/
def tpl14 : String :=
  " where applicable.\n\n    15. Security Considerations:\n        - Address any security implications in the conversion, especially if moving between different security models or environments.\n        - Implement appropriate security best practices for "

/-- Template text up to the closing request's `{target_lang}`. -/
def tpl15 : String :=
  ".\n\n    16. Scalability and Maintainability:\n        - Consider the scalability of the converted code, especially for larger applications.\n        - Ensure the code structure promotes easy maintenance and future extensions.\n\n    17. Compatibility and Interoperability:\n        - If the code needs to interact with other systems or languages, ensure compatibility in the converted version.\n        - Provide guidance on any necessary interface adjustments or middleware.\n\n    Please provide the converted code in "

/-- Template text up to the opening fence of the requested output block. -/
def tpl16 : String :=
  " below, ensuring it adheres to all the above guidelines:\n\n    "

/-- Template text after the output fence language, through the end of the
template. -/
def tpl17 : String :=
  "\n    # Converted code here\n    ```\n\n    After the code block, please provide a brief summary of the major changes, any assumptions made, and any additional steps required to run or deploy the converted code.\n    "

/-- Part of the formatted template from the end of `{code}` to the end: the
seventeen guidelines with ten `{target_lang}` substitutions, the closing
request, and the requested output block fenced with the target language. -/
def promptTail (target_lang : String) : String :=
  tpl6 ++ target_lang ++ tpl7 ++ target_lang ++ tpl8 ++ target_lang ++ tpl9 ++
    target_lang ++ tpl10 ++ target_lang ++ tpl11 ++ target_lang ++ tpl12 ++
    target_lang ++ tpl13 ++ target_lang ++ tpl14 ++ target_lang ++ tpl15 ++
    target_lang ++ tpl16 ++ "```" ++ target_lang ++ tpl17

/-- Model of `conversion_prompt.format(...)`: the fixed template with
`{source_lang}`, `{target_lang}` and `{code}` substituted verbatim, written
as the concatenation of its literal segments and the three inputs. -/
def conversion_prompt (source_lang target_lang code : String) : String :=
  tpl0 ++ source_lang ++ tpl1 ++ target_lang ++ tpl2 ++ source_lang ++ tpl3 ++
    target_lang ++ tpl4 ++ "```" ++ source_lang ++ tpl5 ++ code ++
    promptTail target_lang

/-- Model of the `ChatGroq` client: its configuration (temperature,
model name, max tokens) together with the external behaviour, an
`Except`-valued function from the prompt to the generated text.  A failing
external call is an `Except.error` carrying the cause text. -/
structure ChatGroq where
  temperature : ℚ
  model_name : String
  max_tokens : Nat
  invoke : String → Except String String

/-- Model of `LLMChain(llm=..., prompt=conversion_prompt)`. -/
structure LLMChain where
  llm : ChatGroq
  promptOf : String → String → String → String

/-- Model of `chain.run(source_lang=..., target_lang=..., code=...)`: format
the prompt from the template, then invoke the model client on it. -/
def LLMChain.run (chain : LLMChain) (source_lang target_lang code : String) :
    Except String String :=
  chain.llm.invoke (chain.promptOf source_lang target_lang code)

/-- Model of `setup_conversion_chain`. -/
def setup_conversion_chain (llm : ChatGroq) : LLMChain :=
  ⟨llm, conversion_prompt⟩

/-- Cache key: the argument triple on which `@st.cache_data` memoizes
`convert_code` (the `_chain` argument is excluded by its leading
underscore). -/
abbrev CacheKey := String × String × String

/-- The process-wide memoization store, modelled as an association list. -/
abbrev Cache := List (CacheKey × String)

/-- Lookup in the memoization store. -/
def cacheLookup (cache : Cache) (key : CacheKey) : Option String :=
  match cache with
  | [] => none
  | (k', v) :: rest => if k' = key then some v else cacheLookup rest key

/-- Result of one `convert_code` call: the value or error, the store after
the call, and how many external-model invocations the call made. -/
structure CallResult where
  result : Except String String
  cache : Cache
  calls : Nat

/-- Model of `convert_code` under `@st.cache_data`: on a hit return the
stored string with no external call; on a miss run the chain; a successful
value is stored under the triple, and nothing is stored on failure. -/
def convert_code (chain : LLMChain) (cache : Cache)
    (source_lang target_lang code : String) : CallResult :=
  match cacheLookup cache (source_lang, target_lang, code) with
  | some v => ⟨Except.ok v, cache, 0⟩
  | none =>
    match chain.run source_lang target_lang code with
    | Except.ok v => ⟨Except.ok v, ((source_lang, target_lang, code), v) :: cache, 1⟩
    | Except.error e => ⟨Except.error e, cache, 1⟩

/-- User-visible outcome of one press of the transform button. -/
inductive Outcome where
  /-- `st.write(response)` followed by the success banner. -/
  | converted (response : String)
  /-- The `st.error` message of the `except` branch, carrying `str(e)`. -/
  | transformError (msg : String)
  /-- The `st.warning` asking for a substantial code snippet. -/
  | shortCodeWarning
deriving DecidableEq, Repr

/-- Result of one press of the transform button. -/
structure StepResult where
  outcome : Outcome
  cache : Cache
  calls : Nat
deriving DecidableEq

set_option linter.unusedVariables false in
/-- Body of the `if transform_button:` block in `main`: the truthiness and
stripped-length test on the code, the (unused) `cache_key` computation, the
memoized conversion, and the success or error message. -/
def transformStep (chain : LLMChain) (cache : Cache)
    (source_lang target_lang source_code : String) : StepResult :=
  if source_code ≠ "" ∧ 10 ≤ (pyStrip source_code).length then
    let cache_key := hash_input source_lang target_lang source_code
    let r := convert_code chain cache source_lang target_lang source_code
    match r.result with
    | Except.ok v => ⟨Outcome.converted v, r.cache, r.calls⟩
    | Except.error e =>
      ⟨Outcome.transformError ("An error occurred during transformation: " ++ e),
        r.cache, r.calls⟩
  else ⟨Outcome.shortCodeWarning, cache, 0⟩

/-- The same button-press body with the dead `cache_key = hash_input(...)`
computation removed; used to state that the fingerprint has no effect on
observable behaviour. -/
def transformStepNoKey (chain : LLMChain) (cache : Cache)
    (source_lang target_lang source_code : String) : StepResult :=
  if source_code ≠ "" ∧ 10 ≤ (pyStrip source_code).length then
    let r := convert_code chain cache source_lang target_lang source_code
    match r.result with
    | Except.ok v => ⟨Outcome.converted v, r.cache, r.calls⟩
    | Except.error e =>
      ⟨Outcome.transformError ("An error occurred during transformation: " ++ e),
        r.cache, r.calls⟩
  else ⟨Outcome.shortCodeWarning, cache, 0⟩

/-- Overall outcome of a run of `main`. -/
inductive MainOutcome where
  /-- `handle_api` saw an empty key: warning plus `st.stop()`. -/
  | stoppedNoApiKey
  /-- The transform button was not pressed. -/
  | idle
  /-- The button-press body ran with the given outcome. -/
  | stepped (o : Outcome)
deriving DecidableEq, Repr

/-- Result of a run of `main`. -/
structure MainResult where
  outcome : MainOutcome
  cache : Cache
  calls : Nat
deriving DecidableEq

/-- Model of `main`: `handle_api` stops the script when the credential
string is empty; otherwise the chain is built and, when the button is
pressed, the transform body runs on languages chosen from the two
selectboxes, which offer exactly the members of `LANGUAGES`. -/
def main_run (groq_api_key : String) (llm : ChatGroq) (cache : Cache)
    (transform_button : Bool) (si ti : Fin LANGUAGES.length)
    (source_code : String) : MainResult :=
  if groq_api_key = "" then ⟨MainOutcome.stoppedNoApiKey, cache, 0⟩
  else
    let conversion_chain := setup_conversion_chain llm
    if transform_button then
      let r := transformStep conversion_chain cache
        (LANGUAGES.get si) (LANGUAGES.get ti) source_code
      ⟨MainOutcome.stepped r.outcome, r.cache, r.calls⟩
    else ⟨MainOutcome.idle, cache, 0⟩

/-- Deterministic mock of the external model client: every call succeeds
with the fixed string `reply`. -/
def mockLLM (reply : String) : ChatGroq :=
  ⟨0.2, "mixtral-8x7b-32768", 32768, fun _ => Except.ok reply⟩

/-- Conversion chain over the successful mock client. -/
def mockChain (reply : String) : LLMChain :=
  setup_conversion_chain (mockLLM reply)

/-- Mock of the external model client that always fails with the given
cause text. -/
def failLLM (cause : String) : ChatGroq :=
  ⟨0.2, "mixtral-8x7b-32768", 32768, fun _ => Except.error cause⟩

/-- Conversion chain over the failing mock client. -/
def failChain (cause : String) : LLMChain :=
  setup_conversion_chain (failLLM cause)

/-- Sample request code (the end-to-end scenario of the specification). -/
def sampleCode : String := "def add(a, b):\n    return a + b"

/-! Helper lemmas about the cache, the validation test and the step body. -/

theorem cacheLookup_cons_self (cache : Cache) (key : CacheKey) (v : String) :
    cacheLookup ((key, v) :: cache) key = some v := by
  simp [cacheLookup]

theorem pyStrip_length_ne_empty {s : String} (h : 10 ≤ (pyStrip s).length) :
    s ≠ "" := by
  intro hs
  subst hs
  exact absurd h (by decide)

theorem convert_code_hit (chain : LLMChain) {cache : Cache}
    {source_lang target_lang code v : String}
    (h : cacheLookup cache (source_lang, target_lang, code) = some v) :
    convert_code chain cache source_lang target_lang code =
      ⟨Except.ok v, cache, 0⟩ := by
  simp [convert_code, h]

theorem convert_code_miss_ok {chain : LLMChain} {cache : Cache}
    {source_lang target_lang code v : String}
    (h : cacheLookup cache (source_lang, target_lang, code) = none)
    (hok : chain.run source_lang target_lang code = Except.ok v) :
    convert_code chain cache source_lang target_lang code =
      ⟨Except.ok v, ((source_lang, target_lang, code), v) :: cache, 1⟩ := by
  simp [convert_code, h, hok]

theorem convert_code_miss_error {chain : LLMChain} {cache : Cache}
    {source_lang target_lang code cause : String}
    (h : cacheLookup cache (source_lang, target_lang, code) = none)
    (herr : chain.run source_lang target_lang code = Except.error cause) :
    convert_code chain cache source_lang target_lang code =
      ⟨Except.error cause, cache, 1⟩ := by
  simp [convert_code, h, herr]

theorem transformStep_of_convert {chain : LLMChain} {cache : Cache}
    {source_lang target_lang source_code : String}
    (hvalid : source_code ≠ "" ∧ 10 ≤ (pyStrip source_code).length) :
    transformStep chain cache source_lang target_lang source_code =
      match convert_code chain cache source_lang target_lang source_code with
      | ⟨Except.ok v, cache', n⟩ => ⟨Outcome.converted v, cache', n⟩
      | ⟨Except.error e, cache', n⟩ =>
        ⟨Outcome.transformError ("An error occurred during transformation: " ++ e),
          cache', n⟩ := by
  unfold transformStep
  rw [if_pos hvalid]
  cases hr : convert_code chain cache source_lang target_lang source_code with
  | mk result cache' calls => cases result <;> simp [hr]

theorem transformStep_reject {chain : LLMChain} {cache : Cache}
    {source_lang target_lang source_code : String}
    (h : ¬ (source_code ≠ "" ∧ 10 ≤ (pyStrip source_code).length)) :
    transformStep chain cache source_lang target_lang source_code =
      ⟨Outcome.shortCodeWarning, cache, 0⟩ := by
  unfold transformStep
  rw [if_neg h]

/-! Claim theorems. -/

set_option linter.unusedVariables false in
/-- C1: for every valid request, pressing convert twice with identical
(sourceLanguage, targetLanguage, code) — the external call mocked to a
fixed deterministic successful response — invokes the external call at most
once in total, and the second call returns the identical string from the
cache with no new external invocation. -/
theorem repeat_request_hits_cache
    (chain : LLMChain) (cache : Cache) (source_lang target_lang code v : String)
    (hvalid : code ≠ "" ∧ 10 ≤ (pyStrip code).length)
    (hok : chain.run source_lang target_lang code = Except.ok v) :
    (convert_code chain cache source_lang target_lang code).calls +
      (convert_code chain (convert_code chain cache source_lang target_lang code).cache
        source_lang target_lang code).calls ≤ 1 ∧
    (convert_code chain (convert_code chain cache source_lang target_lang code).cache
        source_lang target_lang code).result =
      (convert_code chain cache source_lang target_lang code).result ∧
    (convert_code chain (convert_code chain cache source_lang target_lang code).cache
        source_lang target_lang code).calls = 0 := by
  cases h : cacheLookup cache (source_lang, target_lang, code) with
  | some w => simp [convert_code_hit chain h]
  | none =>
    have h1 := convert_code_miss_ok h hok
    have h2 := convert_code_hit chain
      (cacheLookup_cons_self cache (source_lang, target_lang, code) v)
    simp [h1, h2]

/-- Witness for C1 at the specification's end-to-end scenario. -/
theorem repeat_request_hits_cache_witness :
    (sampleCode ≠ "" ∧ 10 ≤ (pyStrip sampleCode).length) ∧
    ((mockChain "converted").run "Python" "Go" sampleCode = Except.ok "converted") ∧
    ((convert_code (mockChain "converted") [] "Python" "Go" sampleCode).calls +
      (convert_code (mockChain "converted")
        (convert_code (mockChain "converted") [] "Python" "Go" sampleCode).cache
        "Python" "Go" sampleCode).calls ≤ 1 ∧
    (convert_code (mockChain "converted")
        (convert_code (mockChain "converted") [] "Python" "Go" sampleCode).cache
        "Python" "Go" sampleCode).result =
      (convert_code (mockChain "converted") [] "Python" "Go" sampleCode).result ∧
    (convert_code (mockChain "converted")
        (convert_code (mockChain "converted") [] "Python" "Go" sampleCode).cache
        "Python" "Go" sampleCode).calls = 0) :=
  ⟨by decide, rfl,
    repeat_request_hits_cache (mockChain "converted") [] "Python" "Go" sampleCode
      "converted" (by decide) rfl⟩

/-- C2: two requests with identical (sourceLanguage, targetLanguage, code)
map to the same cache entry regardless of configuration: after a first
successful call with one chain, a second call whose chain differs only in
temperature and max tokens returns the cached value with no new external
call. -/
theorem config_excluded_from_cache_key
    (llm : ChatGroq) (temperature' : ℚ) (max_tokens' : Nat) (cache : Cache)
    (source_lang target_lang code v : String)
    (hok : (setup_conversion_chain llm).run source_lang target_lang code =
      Except.ok v) :
    (convert_code (setup_conversion_chain ⟨temperature', llm.model_name, max_tokens', llm.invoke⟩)
        (convert_code (setup_conversion_chain llm) cache source_lang target_lang code).cache
        source_lang target_lang code).calls = 0 ∧
    (convert_code (setup_conversion_chain ⟨temperature', llm.model_name, max_tokens', llm.invoke⟩)
        (convert_code (setup_conversion_chain llm) cache source_lang target_lang code).cache
        source_lang target_lang code).result =
      (convert_code (setup_conversion_chain llm) cache source_lang target_lang code).result := by
  cases h : cacheLookup cache (source_lang, target_lang, code) with
  | some w =>
    simp [convert_code_hit (setup_conversion_chain llm) h,
      convert_code_hit
        (setup_conversion_chain ⟨temperature', llm.model_name, max_tokens', llm.invoke⟩) h]
  | none =>
    have h1 := convert_code_miss_ok h hok
    have h2 := convert_code_hit
      (setup_conversion_chain ⟨temperature', llm.model_name, max_tokens', llm.invoke⟩)
      (cacheLookup_cons_self cache (source_lang, target_lang, code) v)
    simp [h1, h2]

/-- Witness for C2: the same request with temperature and max tokens
changed between the calls still hits the cache. -/
theorem config_excluded_from_cache_key_witness :
    ((setup_conversion_chain (mockLLM "converted")).run "Python" "Go" sampleCode =
      Except.ok "converted") ∧
    ((convert_code
        (setup_conversion_chain
          ⟨0.9, (mockLLM "converted").model_name, 1000, (mockLLM "converted").invoke⟩)
        (convert_code (setup_conversion_chain (mockLLM "converted")) []
          "Python" "Go" sampleCode).cache
        "Python" "Go" sampleCode).calls = 0 ∧
    (convert_code
        (setup_conversion_chain
          ⟨0.9, (mockLLM "converted").model_name, 1000, (mockLLM "converted").invoke⟩)
        (convert_code (setup_conversion_chain (mockLLM "converted")) []
          "Python" "Go" sampleCode).cache
        "Python" "Go" sampleCode).result =
      (convert_code (setup_conversion_chain (mockLLM "converted")) []
        "Python" "Go" sampleCode).result) :=
  ⟨rfl,
    config_excluded_from_cache_key (mockLLM "converted") 0.9 1000 []
      "Python" "Go" sampleCode "converted" rfl⟩

/-- C4: every request whose stripped code length is below 10 is rejected
with the warning message, makes no external call, and leaves the cache
untouched. -/
theorem short_code_rejected_no_call
    (chain : LLMChain) (cache : Cache) (source_lang target_lang source_code : String)
    (hshort : (pyStrip source_code).length < 10) :
    transformStep chain cache source_lang target_lang source_code =
      ⟨Outcome.shortCodeWarning, cache, 0⟩ := by
  apply transformStep_reject
  rintro ⟨-, hlen⟩
  omega

/-- Witness for C4 at the specification's scenario `code = "x=1"`. -/
theorem short_code_rejected_no_call_witness :
    (pyStrip "x=1").length < 10 ∧
    transformStep (mockChain "converted") [] "Python" "Go" "x=1" =
      ⟨Outcome.shortCodeWarning, [], 0⟩ :=
  ⟨by decide,
    short_code_rejected_no_call (mockChain "converted") [] "Python" "Go" "x=1"
      (by decide)⟩

/-- C7: when the external call fails on a valid uncached request, the step
surfaces an error message carrying the underlying cause text, the cache is
unchanged and still contains no entry for that key, so an identical retry
invokes the external call again. -/
theorem generation_error_propagated_not_cached
    (chain : LLMChain) (cache : Cache)
    (source_lang target_lang source_code cause : String)
    (hvalid : source_code ≠ "" ∧ 10 ≤ (pyStrip source_code).length)
    (hmiss : cacheLookup cache (source_lang, target_lang, source_code) = none)
    (herr : chain.run source_lang target_lang source_code = Except.error cause) :
    (transformStep chain cache source_lang target_lang source_code).outcome =
      Outcome.transformError ("An error occurred during transformation: " ++ cause) ∧
    (transformStep chain cache source_lang target_lang source_code).cache = cache ∧
    cacheLookup (transformStep chain cache source_lang target_lang source_code).cache
      (source_lang, target_lang, source_code) = none ∧
    (transformStep chain
        (transformStep chain cache source_lang target_lang source_code).cache
        source_lang target_lang source_code).calls = 1 := by
  have h1 := convert_code_miss_error hmiss herr
  simp only [transformStep_of_convert hvalid]
  simp [h1, hmiss]

/-- Witness for C7 with the failing mock client. -/
theorem generation_error_propagated_not_cached_witness :
    (sampleCode ≠ "" ∧ 10 ≤ (pyStrip sampleCode).length) ∧
    (cacheLookup [] ("Python", "Go", sampleCode) = none) ∧
    ((failChain "network down").run "Python" "Go" sampleCode =
      Except.error "network down") ∧
    ((transformStep (failChain "network down") [] "Python" "Go" sampleCode).outcome =
      Outcome.transformError ("An error occurred during transformation: " ++ "network down") ∧
    (transformStep (failChain "network down") [] "Python" "Go" sampleCode).cache = [] ∧
    cacheLookup (transformStep (failChain "network down") [] "Python" "Go" sampleCode).cache
      ("Python", "Go", sampleCode) = none ∧
    (transformStep (failChain "network down")
        (transformStep (failChain "network down") [] "Python" "Go" sampleCode).cache
        "Python" "Go" sampleCode).calls = 1) :=
  ⟨by decide, rfl, rfl,
    generation_error_propagated_not_cached (failChain "network down") []
      "Python" "Go" sampleCode "network down" (by decide) rfl rfl⟩

/-- C9: the system is fail-closed on the credential: with the secret
credential string absent (empty), `main` stops before building the chain,
so no execution path reaches the external model call and the cache is
untouched. -/
theorem missing_api_key_blocks_all
    (groq_api_key : String) (llm : ChatGroq) (cache : Cache)
    (transform_button : Bool) (si ti : Fin LANGUAGES.length)
    (source_code : String) (hempty : groq_api_key = "") :
    main_run groq_api_key llm cache transform_button si ti source_code =
      ⟨MainOutcome.stoppedNoApiKey, cache, 0⟩ := by
  subst hempty
  unfold main_run
  rw [if_pos rfl]

/-- Witness for C9 with the button pressed and a valid code snippet. -/
theorem missing_api_key_blocks_all_witness :
    (("" : String) = "") ∧
    main_run "" (mockLLM "converted") [] true ⟨0, by decide⟩ ⟨5, by decide⟩
        sampleCode =
      ⟨MainOutcome.stoppedNoApiKey, [], 0⟩ :=
  ⟨rfl,
    missing_api_key_blocks_all "" (mockLLM "converted") [] true ⟨0, by decide⟩
      ⟨5, by decide⟩ sampleCode rfl⟩

/-- C10: the fingerprint computed by `hash_input` has no effect on
observable behaviour: the step body with the `cache_key` computation
removed is observationally equal to the body as written, and whether
`convert_code` makes an external call is independent of the excluded
`_chain` argument — the memoization is keyed on the argument triple
alone. -/
theorem cache_key_dead_code_equiv
    (chain chain' : LLMChain) (cache : Cache)
    (source_lang target_lang source_code : String) :
    transformStep chain cache source_lang target_lang source_code =
      transformStepNoKey chain cache source_lang target_lang source_code ∧
    (convert_code chain cache source_lang target_lang source_code).calls =
      (convert_code chain' cache source_lang target_lang source_code).calls := by
  refine ⟨rfl, ?_⟩
  cases h : cacheLookup cache (source_lang, target_lang, source_code) with
  | some w => simp [convert_code_hit chain h, convert_code_hit chain' h]
  | none =>
    have hc : ∀ ch : LLMChain,
        (convert_code ch cache source_lang target_lang source_code).calls = 1 := by
      intro ch
      cases hr : ch.run source_lang target_lang source_code with
      | ok v => rw [convert_code_miss_ok h hr]
      | error e => rw [convert_code_miss_error h hr]
    rw [hc chain, hc chain']

/-- C5 counterexample: a code text of ten characters of which only two are
non-whitespace (interior spaces) is accepted — the conversion runs and the
external call is made — because the test uses `len(code.strip())`, which
counts interior whitespace, not the count of non-whitespace characters. -/
theorem interior_whitespace_accepted :
    nonWhitespaceCount "a        b" < 10 ∧
    (transformStep (mockChain "converted") [] "Python" "Go" "a        b").outcome =
      Outcome.converted "converted" ∧
    (transformStep (mockChain "converted") [] "Python" "Go" "a        b").calls = 1 :=
  ⟨by decide, rfl, rfl⟩

/-- C5 amended: a request is accepted for conversion exactly when the code
has at least 10 characters after stripping leading and trailing whitespace
(which forces the code to be non-empty); interior whitespace counts toward
the minimum. -/
theorem acceptance_iff_stripped_length
    (chain : LLMChain) (cache : Cache)
    (source_lang target_lang source_code : String) :
    ((transformStep chain cache source_lang target_lang source_code).outcome ≠
        Outcome.shortCodeWarning ↔ 10 ≤ (pyStrip source_code).length) := by
  by_cases h : source_code ≠ "" ∧ 10 ≤ (pyStrip source_code).length
  · rw [transformStep_of_convert h]
    have hne : (match convert_code chain cache source_lang target_lang source_code with
        | ⟨Except.ok v, cache', n⟩ => (⟨Outcome.converted v, cache', n⟩ : StepResult)
        | ⟨Except.error e, cache', n⟩ =>
          ⟨Outcome.transformError ("An error occurred during transformation: " ++ e),
            cache', n⟩).outcome ≠ Outcome.shortCodeWarning := by
      cases hr : convert_code chain cache source_lang target_lang source_code with
      | mk result cache' calls => cases result <;> simp [hr]
    simp [hne, h.2]
  · rw [transformStep_reject h]
    constructor
    · intro hw
      simp at hw
    · intro hlen
      exact absurd ⟨pyStrip_length_ne_empty hlen, hlen⟩ h

/-- C6 counterexample: a request whose target language is `"COBOL"`, which
is outside the enumerated set, is not rejected: the step succeeds and the
external call is made, so the pipeline performs no language validation. -/
theorem out_of_set_language_not_rejected :
    ("COBOL" ∉ LANGUAGES) ∧
    (transformStep (mockChain "converted") [] "Python" "COBOL" sampleCode).outcome =
      Outcome.converted "converted" ∧
    (transformStep (mockChain "converted") [] "Python" "COBOL" sampleCode).calls = 1 :=
  ⟨by decide, rfl, rfl⟩

/-- C6 amended: languages outside the enumerated set cannot be submitted
through the page, because both selectboxes offer exactly the members of
`LANGUAGES`; the conversion pipeline itself performs no language check —
the only rejection the step body implements depends on the code text
alone. -/
theorem ui_language_selection_in_set (si ti : Fin LANGUAGES.length) :
    LANGUAGES.get si ∈ LANGUAGES ∧ LANGUAGES.get ti ∈ LANGUAGES ∧
    ∀ (chain : LLMChain) (cache : Cache)
      (source_lang target_lang source_code : String),
      ((transformStep chain cache source_lang target_lang source_code).outcome =
          Outcome.shortCodeWarning ↔
        ¬ (source_code ≠ "" ∧ 10 ≤ (pyStrip source_code).length)) := by
  refine ⟨LANGUAGES.get_mem si.1 si.2, LANGUAGES.get_mem ti.1 ti.2, ?_⟩
  intro chain cache source_lang target_lang source_code
  by_cases h : source_code ≠ "" ∧ 10 ≤ (pyStrip source_code).length
  · rw [transformStep_of_convert h]
    have hne : (match convert_code chain cache source_lang target_lang source_code with
        | ⟨Except.ok v, cache', n⟩ => (⟨Outcome.converted v, cache', n⟩ : StepResult)
        | ⟨Except.error e, cache', n⟩ =>
          ⟨Outcome.transformError ("An error occurred during transformation: " ++ e),
            cache', n⟩).outcome ≠ Outcome.shortCodeWarning := by
      cases hr : convert_code chain cache source_lang target_lang source_code with
      | mk result cache' calls => cases result <;> simp [hr]
    simp [hne, h]
  · rw [transformStep_reject h]
    simp [h]

/-- C8: the formatted prompt embeds the source language, the target
language, and the code text verbatim (in particular it names both
languages), requests the output fenced as a target-language code block,
and is a pure function of its three inputs and the fixed template: equal
inputs yield the identical prompt string. -/
theorem conversion_prompt_embeds_inputs (source_lang target_lang code : String) :
    (∃ p q, conversion_prompt source_lang target_lang code =
      p ++ source_lang ++ q) ∧
    (∃ p q, conversion_prompt source_lang target_lang code =
      p ++ target_lang ++ q) ∧
    (∃ p q, conversion_prompt source_lang target_lang code = p ++ code ++ q) ∧
    (∃ p q, conversion_prompt source_lang target_lang code =
      p ++ ("```" ++ target_lang) ++ q) ∧
    (∀ source_lang' target_lang' code' : String, source_lang = source_lang' →
      target_lang = target_lang' → code = code' →
      conversion_prompt source_lang target_lang code =
        conversion_prompt source_lang' target_lang' code') := by
  refine ⟨⟨tpl0, tpl1 ++ target_lang ++ tpl2 ++ source_lang ++ tpl3 ++ target_lang ++
      tpl4 ++ "```" ++ source_lang ++ tpl5 ++ code ++ promptTail target_lang, ?_⟩,
    ⟨tpl0 ++ source_lang ++ tpl1, tpl2 ++ source_lang ++ tpl3 ++ target_lang ++
      tpl4 ++ "```" ++ source_lang ++ tpl5 ++ code ++ promptTail target_lang, ?_⟩,
    ⟨tpl0 ++ source_lang ++ tpl1 ++ target_lang ++ tpl2 ++ source_lang ++ tpl3 ++
      target_lang ++ tpl4 ++ "```" ++ source_lang ++ tpl5, promptTail target_lang, ?_⟩,
    ⟨tpl0 ++ source_lang ++ tpl1 ++ target_lang ++ tpl2 ++ source_lang ++ tpl3 ++
      target_lang ++ tpl4 ++ "```" ++ source_lang ++ tpl5 ++ code ++
      (tpl6 ++ target_lang ++ tpl7 ++ target_lang ++ tpl8 ++ target_lang ++ tpl9 ++
        target_lang ++ tpl10 ++ target_lang ++ tpl11 ++ target_lang ++ tpl12 ++
        target_lang ++ tpl13 ++ target_lang ++ tpl14 ++ target_lang ++ tpl15 ++
        target_lang ++ tpl16), tpl17, ?_⟩, ?_⟩
  · simp [conversion_prompt, String.append_assoc]
  · simp [conversion_prompt, String.append_assoc]
  · simp [conversion_prompt, String.append_assoc]
  · simp [conversion_prompt, promptTail, String.append_assoc]
  · intro source_lang' target_lang' code' hs ht hc
    subst hs
    subst ht
    subst hc
    rfl

/-! Development for the fingerprint function: bounds on the digest, and
injectivity analysis of the colon-separated concatenation. -/

theorem md5Chunk_lt (st : MD5State) (chunk : List Nat) :
    (md5Chunk st chunk).a < 2 ^ 32 ∧ (md5Chunk st chunk).b < 2 ^ 32 ∧
    (md5Chunk st chunk).c < 2 ^ 32 ∧ (md5Chunk st chunk).d < 2 ^ 32 := by
  simp only [md5Chunk]
  refine ⟨?_, ?_, ?_, ?_⟩ <;> exact Nat.mod_lt _ (by norm_num)

theorem md5_foldl_lt (chunks : List (List Nat)) :
    ∀ st : MD5State, st.a < 2 ^ 32 → st.b < 2 ^ 32 → st.c < 2 ^ 32 →
      st.d < 2 ^ 32 →
      (chunks.foldl md5Chunk st).a < 2 ^ 32 ∧
      (chunks.foldl md5Chunk st).b < 2 ^ 32 ∧
      (chunks.foldl md5Chunk st).c < 2 ^ 32 ∧
      (chunks.foldl md5Chunk st).d < 2 ^ 32 := by
  induction chunks with
  | nil =>
    intro st h1 h2 h3 h4
    exact ⟨h1, h2, h3, h4⟩
  | cons chunk rest ih =>
    intro st h1 h2 h3 h4
    obtain ⟨g1, g2, g3, g4⟩ := md5Chunk_lt st chunk
    exact ih (md5Chunk st chunk) g1 g2 g3 g4

theorem md5Nat_lt (msg : List Nat) : md5Nat msg < 2 ^ 128 := by
  obtain ⟨h1, h2, h3, h4⟩ :=
    md5_foldl_lt (splitChunks (md5Pad msg)) md5Init (by norm_num [md5Init])
      (by norm_num [md5Init]) (by norm_num [md5Init]) (by norm_num [md5Init])
  simp only [md5Nat, md5Digest]
  have p32 : (2 : ℕ) ^ 32 = 4294967296 := by norm_num
  have p64 : (2 : ℕ) ^ 64 = 18446744073709551616 := by norm_num
  have p96 : (2 : ℕ) ^ 96 = 79228162514264337593543950336 := by norm_num
  have p128 : (2 : ℕ) ^ 128 = 340282366920938463463374607431768211456 := by
    norm_num
  rw [p32] at h1 h2 h3 h4 ⊢
  rw [p64, p96, p128]
  omega

theorem languages_colon_free : ∀ l ∈ LANGUAGES, ':' ∉ l.data := by decide

theorem sepSplit : ∀ {a a' r r' : List Char},
    ':' ∉ a → ':' ∉ a' → a ++ ':' :: r = a' ++ ':' :: r' → a = a' ∧ r = r' := by
  intro a
  induction a with
  | nil =>
    intro a' r r' ha ha' h
    cases a' with
    | nil =>
      simp only [List.nil_append] at h
      exact ⟨rfl, (List.cons.injEq _ _ _ _ ▸ h).2⟩
    | cons y ys =>
      simp only [List.nil_append, List.cons_append, List.cons.injEq] at h
      exact absurd (by rw [h.1]; exact List.mem_cons_self y ys) ha'
  | cons x xs ih =>
    intro a' r r' ha ha' h
    cases a' with
    | nil =>
      simp only [List.cons_append, List.nil_append, List.cons.injEq] at h
      exact absurd (by rw [← h.1]; exact List.mem_cons_self x xs) ha
    | cons y ys =>
      simp only [List.cons_append, List.cons.injEq] at h
      obtain ⟨hxy, htail⟩ := h
      have hxs : ':' ∉ xs := fun hm => ha (List.mem_cons_of_mem _ hm)
      have hys : ':' ∉ ys := fun hm => ha' (List.mem_cons_of_mem _ hm)
      obtain ⟨h1, h2⟩ := ih hxs hys htail
      constructor
      · rw [hxy, h1]
      · exact h2

theorem hashPreimage_data (source_lang target_lang code : String) :
    (hashPreimage source_lang target_lang code).data =
      source_lang.data ++ ':' :: (target_lang.data ++ ':' :: code.data) := by
  have hc : (":" : String).data = [':'] := rfl
  simp [hashPreimage, String.data_append, hc]

/-- C3 counterexample: the key function cannot be injective even across the
enumerated language set — the digest has only `2 ^ 128` possible values
while the code field ranges over infinitely many strings, so two distinct
triples with languages in the set share a key. -/
theorem hash_input_collisions_exist :
    ¬ (∀ source_lang target_lang code source_lang' target_lang' code' : String,
        source_lang ∈ LANGUAGES → target_lang ∈ LANGUAGES →
        source_lang' ∈ LANGUAGES → target_lang' ∈ LANGUAGES →
        hash_input source_lang target_lang code =
          hash_input source_lang' target_lang' code' →
        source_lang = source_lang' ∧ target_lang = target_lang' ∧
          code = code') := by
  intro H
  obtain ⟨c1, c2, hne, heq⟩ :=
    Finite.exists_ne_map_eq_of_infinite
      (fun code : String =>
        (⟨md5Nat (strBytes (hashPreimage "Python" "Python" code)),
          md5Nat_lt _⟩ : Fin (2 ^ 128)))
  have hnat : md5Nat (strBytes (hashPreimage "Python" "Python" c1)) =
      md5Nat (strBytes (hashPreimage "Python" "Python" c2)) :=
    congrArg Fin.val heq
  have hkey : hash_input "Python" "Python" c1 =
      hash_input "Python" "Python" c2 := congrArg md5Hex hnat
  exact hne
    (H "Python" "Python" c1 "Python" "Python" c2 (by decide) (by decide)
      (by decide) (by decide) hkey).2.2

/-- C3 amended: the key is deterministic — equal triples yield equal keys —
and the canonical colon-separated concatenation underlying it is injective
across the enumerated language set (no enumerated language contains the
separator); the final md5 digest, being fixed-length, admits collisions in
principle, so injectivity holds for the concatenation but not for the full
key function. -/
theorem hash_key_deterministic_concat_injective
    (source_lang target_lang code source_lang' target_lang' code' : String)
    (hs : source_lang ∈ LANGUAGES) (ht : target_lang ∈ LANGUAGES)
    (hs' : source_lang' ∈ LANGUAGES) (ht' : target_lang' ∈ LANGUAGES) :
    (hashPreimage source_lang target_lang code =
        hashPreimage source_lang' target_lang' code' ↔
      source_lang = source_lang' ∧ target_lang = target_lang' ∧
        code = code') ∧
    (source_lang = source_lang' → target_lang = target_lang' → code = code' →
      hash_input source_lang target_lang code =
        hash_input source_lang' target_lang' code') := by
  constructor
  · constructor
    · intro h
      have hd := congrArg String.data h
      rw [hashPreimage_data, hashPreimage_data] at hd
      obtain ⟨h1, h2⟩ :=
        sepSplit (languages_colon_free _ hs) (languages_colon_free _ hs') hd
      obtain ⟨h3, h4⟩ :=
        sepSplit (languages_colon_free _ ht) (languages_colon_free _ ht') h2
      exact ⟨congrArg String.mk h1, congrArg String.mk h3, congrArg String.mk h4⟩
    · intro h
      rw [h.1, h.2.1, h.2.2]
  · intro h1 h2 h3
    rw [h1, h2, h3]

/-- Witness for the amended C3 theorem at a concrete triple. -/
theorem hash_key_deterministic_concat_injective_witness :
    ("Python" ∈ LANGUAGES ∧ "Go" ∈ LANGUAGES) ∧
    ((hashPreimage "Python" "Go" "x_total = 1" =
        hashPreimage "Python" "Go" "x_total = 1" ↔
      "Python" = "Python" ∧ "Go" = "Go" ∧ "x_total = 1" = "x_total = 1") ∧
    ("Python" = "Python" → "Go" = "Go" → "x_total = 1" = "x_total = 1" →
      hash_input "Python" "Go" "x_total = 1" =
        hash_input "Python" "Go" "x_total = 1")) :=
  ⟨⟨by decide, by decide⟩,
    hash_key_deterministic_concat_injective "Python" "Go" "x_total = 1"
      "Python" "Go" "x_total = 1" (by decide) (by decide) (by decide)
      (by decide)⟩
